import Mathlib

/-
Verification of the IP-history store, change detector, notification policy
and check orchestrator of the discord-IP-bot repository.

The definitions below are a shallow embedding of `src/ip_history.py`
(class `IPHistoryManager`) and `src/ip_detector.py` (class `IPDetector`).
Python dictionaries become structures, `None` becomes `Option`, clock reads
(`datetime.now(...).isoformat()`, `time.time()`) become explicit string /
natural-number parameters supplied by the caller, and the JSON file becomes
an explicit file-system state.  Python string comparison (`<=` on `str`,
used for ISO-8601 timestamps) is embedded as lexicographic comparison of
code points, and `sorted(..., key=..., reverse=True)` as a stable insertion
sort with the corresponding descending relation (CPython's sort is stable,
and a stable sort's output is uniquely determined by the ordering relation
and the input order, so any stable implementation is an exact model).
-/

namespace IPBot

/-- Python `<=` on strings: lexicographic comparison of code points
(`ord`), with a proper prefix comparing below. -/
def lexLe : List Char → List Char → Bool
  | [], _ => true
  | _ :: _, [] => false
  | a :: as, b :: bs =>
    if a.toNat < b.toNat then true
    else if a.toNat = b.toNat then lexLe as bs
    else false

/-- `a <= b` on Python strings. -/
def pyStrLe (a b : String) : Bool := lexLe a.data b.data

/-- The sentinel string `"無法獲取"` ("could not obtain") used throughout the
source for an address that could not be determined. -/
def sentinel : String := "無法獲取"

/-- Python truthiness-plus-sentinel guard `x and x != "無法獲取"` applied to an
optional string (`None` and `""` are falsy). -/
def goodIp : Option String → Bool
  | none => false
  | some s => !(s = "") && !(s = sentinel)

/-- `metadata` block of the history file. -/
structure Metadata where
  created_at : String
  last_updated : String
  version : String
  total_checks : Nat
  deriving Repr, DecidableEq

/-- `current` block of the history file. -/
structure CurrentState where
  public_ip : Option String
  local_ip : Option String
  last_updated : Option String
  last_notification_sent : Option String
  deriving Repr, DecidableEq

/-- `statistics.check_frequency`: the dictionary literal
`{"scheduled": 0, "manual": 0, "test": 0}` — its key set is fixed at
creation and `_update_statistics` only increments existing keys. -/
structure CheckFrequency where
  scheduled : Nat
  manual : Nat
  test : Nat
  deriving Repr, DecidableEq

/-- `statistics` block of the history file. -/
structure Statistics where
  total_ip_changes : Nat
  total_notifications_sent : Nat
  last_change_date : Option String
  check_frequency : CheckFrequency
  deriving Repr, DecidableEq

/-- One entry of the `history` array (`history_item` in `record_ip_check`).
`previous_public_ip = none` models the key being absent. -/
structure HistoryItem where
  timestamp : String
  public_ip : Option String
  local_ip : Option String
  mode : String
  ip_changed : Bool
  notification_sent : Bool
  execution_duration : Rat
  previous_public_ip : Option String := none
  deriving Repr, DecidableEq

/-- The whole in-memory history document (`self._history_data`). -/
structure HistoryStore where
  metadata : Metadata
  current : CurrentState
  statistics : Statistics
  history : List HistoryItem
  deriving Repr, DecidableEq

/-- The configuration options of `IPHistoryManager` that the modelled code
reads (`compression` and `encoding` only affect the file encoding layer). -/
structure Config where
  keep_days : Int
  max_records : Nat
  auto_cleanup : Bool
  backup_on_corruption : Bool
  deriving Repr, DecidableEq

/-- The defaults set in `IPHistoryManager.__init__`. -/
def defaultConfig : Config :=
  { keep_days := 30, max_records := 1000, auto_cleanup := true,
    backup_on_corruption := true }

/-- Round half to even to an integer (the rounding Python's `round` uses). -/
def roundHalfEven (q : Rat) : Int :=
  let f := ⌊q⌋
  if q - f < 1/2 then f
  else if (1:Rat)/2 < q - f then f + 1
  else if f % 2 = 0 then f else f + 1

/-- `round(x, 2)` applied to the execution duration (the float is modelled
as an exact rational). -/
def pyRound2 (q : Rat) : Rat := (roundHalfEven (q * 100) : Rat) / 100

/-- `_create_initial_history` (the in-memory structure it builds; the
`save_history` call it performs is part of the file-system layer below).
`now` stands for the `_get_current_timestamp()` reads. -/
def create_initial_history (now : String) : HistoryStore :=
  { metadata :=
      { created_at := now, last_updated := now, version := "1.0",
        total_checks := 0 },
    current :=
      { public_ip := none, local_ip := none, last_updated := none,
        last_notification_sent := none },
    statistics :=
      { total_ip_changes := 0, total_notifications_sent := 0,
        last_change_date := none,
        check_frequency := { scheduled := 0, manual := 0, test := 0 } },
    history := [] }

/-- `get_last_public_ip`: returns `current.public_ip` unless it is falsy or
the sentinel. -/
def get_last_public_ip (st : HistoryStore) : Option String :=
  let current_ip := st.current.public_ip
  if goodIp current_ip then current_ip else none

/-- `has_ip_changed(current_public_ip)`. -/
def has_ip_changed (st : HistoryStore) (current_public_ip : String) : Bool :=
  if current_public_ip = "" ∨ current_public_ip = sentinel then false
  else
    match get_last_public_ip st with
    | none => true
    | some last_ip => decide (current_public_ip ≠ last_ip)

/-- `_update_statistics(mode, ip_changed, notification_sent, timestamp)`. -/
def update_statistics (st : HistoryStore) (mode : String)
    (ip_changed notification_sent : Bool) (timestamp : String) : HistoryStore :=
  let md := { st.metadata with total_checks := st.metadata.total_checks + 1 }
  let cf := st.statistics.check_frequency
  let cf :=
    if mode = "scheduled" then { cf with scheduled := cf.scheduled + 1 }
    else if mode = "manual" then { cf with manual := cf.manual + 1 }
    else if mode = "test" then { cf with test := cf.test + 1 }
    else cf
  let stats := { st.statistics with check_frequency := cf }
  let stats :=
    if ip_changed then
      { stats with total_ip_changes := stats.total_ip_changes + 1,
                   last_change_date := some timestamp }
    else stats
  let stats :=
    if notification_sent then
      { stats with
          total_notifications_sent := stats.total_notifications_sent + 1 }
    else stats
  { st with metadata := md, statistics := stats }

/-- Stable insertion of an element into a list (auxiliary for the model of
`sorted`). -/
def insertLe {α : Type} (le : α → α → Bool) (x : α) : List α → List α
  | [] => [x]
  | y :: ys => if le x y then x :: y :: ys else y :: insertLe le x ys

/-- Stable sort by the relation `le` (model of CPython's stable `sorted`). -/
def insSort {α : Type} (le : α → α → Bool) : List α → List α
  | [] => []
  | x :: xs => insertLe le x (insSort le xs)

/-- The comparison behind `sorted(filtered_records, key=lambda x:
x.get("timestamp", ""), reverse=True)`: `a` may precede `b` iff
`b.timestamp <= a.timestamp`. -/
def tsDesc (a b : HistoryItem) : Bool := pyStrLe b.timestamp a.timestamp

/-- `sorted(records, key=timestamp, reverse=True)`. -/
def sortDescByTimestamp (l : List HistoryItem) : List HistoryItem :=
  insSort tsDesc l

/-- `_cleanup_old_records` with the `keep_days` default already resolved.
`cutoff_iso` is the caller-supplied value of
`(datetime.now(timezone.utc) - timedelta(days=keep_days)).isoformat()`. -/
def cleanup_old_records_impl (cfg : Config) (keep_days : Int)
    (cutoff_iso : String) (st : HistoryStore) : Nat × HistoryStore :=
  if keep_days ≤ 0 then (0, st)
  else
    let history_records := st.history
    let original_count := history_records.length
    let filtered_records :=
      history_records.filter (fun record => pyStrLe cutoff_iso record.timestamp)
    let max_records := cfg.max_records
    let filtered_records :=
      if max_records < filtered_records.length then
        (sortDescByTimestamp filtered_records).take max_records
      else filtered_records
    let cleaned_count := original_count - filtered_records.length
    if 0 < cleaned_count then
      (cleaned_count, { st with history := filtered_records })
    else (cleaned_count, st)

/-- `cleanup_old_records(keep_days=None)` (the public method; `none` means
"use the configured `keep_days`", as does the internal default). -/
def cleanup_old_records (cfg : Config) (keep_days : Option Int)
    (cutoff_iso : String) (st : HistoryStore) : Nat × HistoryStore :=
  cleanup_old_records_impl cfg (keep_days.getD cfg.keep_days) cutoff_iso st

/-- The in-memory effect of `save_history`: it refreshes
`metadata.last_updated` before serializing. -/
def save_history_touch (now : String) (st : HistoryStore) : HistoryStore :=
  { st with metadata := { st.metadata with last_updated := now } }

/-- The dictionary produced by one resolver invocation (`ip_data` /
`current_ips`); `none` models an absent key.  The `platform` and `hostname`
keys added by `get_all_ips` are process-environment metadata never read by
the modelled code and are not carried. -/
structure IPData where
  local_ip : Option String := none
  public_ip : Option String := none
  timestamp : Option String := none
  errors : List String := []
  deriving Repr, DecidableEq

/-- The `history_item` dictionary built inside `record_ip_check`. -/
def build_history_item (st : HistoryStore) (ip_data : IPData) (mode : String)
    (notification_sent : Bool) (execution_duration : Rat)
    (current_time : String) : HistoryItem :=
  let public_ip := ip_data.public_ip
  let ip_changed :=
    if goodIp public_ip then has_ip_changed st (public_ip.getD "") else false
  { timestamp := current_time,
    public_ip := public_ip,
    local_ip := ip_data.local_ip,
    mode := mode,
    ip_changed := ip_changed,
    notification_sent := notification_sent,
    execution_duration := pyRound2 execution_duration,
    previous_public_ip :=
      if ip_changed then get_last_public_ip st else none }

/-- The three conditional updates of the `current` block performed by
`record_ip_check` (they assign only fields of `current`). -/
def updated_current (cur : CurrentState) (public_ip local_ip : Option String)
    (notification_sent : Bool) (current_time : String) : CurrentState :=
  let cur :=
    if goodIp public_ip then
      { cur with public_ip := public_ip, last_updated := some current_time }
    else cur
  let cur :=
    if goodIp local_ip then { cur with local_ip := local_ip } else cur
  let cur :=
    if notification_sent then
      { cur with last_notification_sent := some current_time }
    else cur
  cur

/-- `record_ip_check(ip_data, mode, notification_sent, execution_duration)`,
also returning the number of records the embedded auto-cleanup removed.
`now` stands for the `_get_current_timestamp()` reads of this call and
`cutoff_iso` for the cutoff the embedded cleanup computes from the clock. -/
def record_ip_check_core (cfg : Config) (st : HistoryStore) (ip_data : IPData)
    (mode : String) (notification_sent : Bool) (execution_duration : Rat)
    (now : String) (cutoff_iso : String) : Nat × HistoryStore :=
  let current_time := now
  let history_item :=
    build_history_item st ip_data mode notification_sent execution_duration
      current_time
  let st := { st with history := st.history ++ [history_item] }
  let new_current :=
    updated_current st.current ip_data.public_ip ip_data.local_ip
      notification_sent current_time
  let st := { st with current := new_current }
  let st :=
    update_statistics st mode history_item.ip_changed notification_sent
      current_time
  let cleaned_st :=
    if cfg.auto_cleanup then cleanup_old_records cfg none cutoff_iso st
    else (0, st)
  let st := save_history_touch now cleaned_st.2
  (cleaned_st.1, st)

/-- `record_ip_check` as the source exposes it: returns success (`true` on
the exception-free path modelled here) and the updated store. -/
def record_ip_check (cfg : Config) (st : HistoryStore) (ip_data : IPData)
    (mode : String) (notification_sent : Bool) (execution_duration : Rat)
    (now : String) (cutoff_iso : String) : Bool × HistoryStore :=
  (true,
   (record_ip_check_core cfg st ip_data mode notification_sent
      execution_duration now cutoff_iso).2)

/-- `IPDetector._should_notify(mode, has_changed)`. -/
def should_notify (mode : String) (has_changed : Bool) : Bool :=
  if mode = "test" then false
  else if mode = "manual" then true
  else if mode = "scheduled" then has_changed
  else false

/-- `IPDetector.get_all_ips`: each resolver outcome is either an address or
a `NetworkError` message; a failed source yields the sentinel plus an entry
in `errors`. -/
def get_all_ips (local_res pub_res : Except String String)
    (now : String) : IPData :=
  let (local_ip, local_errs) :=
    match local_res with
    | .ok ip => (some ip, ([] : List String))
    | .error e => (some sentinel, ["本地IP獲取失敗: " ++ e])
  let (public_ip, public_errs) :=
    match pub_res with
    | .ok ip => (some ip, ([] : List String))
    | .error e => (some sentinel, ["公共IP獲取失敗: " ++ e])
  { local_ip := local_ip, public_ip := public_ip, timestamp := some now,
    errors := local_errs ++ public_errs }

/-- The result envelope of `check_ip_with_history` (the
`history_manager`-present path).  `warnings = []` models the key being
absent; `error = none` models `"error": None`. -/
structure CheckResult where
  local_ip : Option String
  public_ip : Option String
  has_changed : Bool
  should_notify : Bool
  mode : String
  timestamp : String
  execution_duration : Rat
  error : Option String
  using_new_history : Bool
  warnings : List String := []
  deriving Repr, DecidableEq

/-- `IPDetector.check_ip_with_history(mode)` on the canonical
(history-manager) path, with the resolver outcomes and the clock reads
passed in explicitly; returns the result envelope and the store as left by
the call. -/
def check_ip_with_history (cfg : Config) (st : HistoryStore)
    (local_res pub_res : Except String String) (mode : String) (now : String)
    (duration : Rat) (cutoff_iso : String) : CheckResult × HistoryStore :=
  let current_ips := get_all_ips local_res pub_res now
  let public_ip := current_ips.public_ip
  let local_ip := current_ips.local_ip
  let has_changed :=
    if goodIp public_ip then has_ip_changed st (public_ip.getD "") else false
  let notify := should_notify mode has_changed
  let result : CheckResult :=
    { local_ip := local_ip, public_ip := public_ip,
      has_changed := has_changed, should_notify := notify, mode := mode,
      timestamp := now, execution_duration := pyRound2 duration,
      error := none, using_new_history := true,
      warnings := current_ips.errors }
  let st' :=
    if mode ≠ "test" then
      (record_ip_check cfg st current_ips mode notify
         result.execution_duration now cutoff_iso).2
    else st
  (result, st')

/-- Contents of the history file as the loader classifies them:
unparsable JSON (`json.JSONDecodeError`), JSON that fails
`_validate_history_data`, or a well-formed serialized store. -/
inductive FileData where
  | malformed (raw : String)
  | invalidStruct (raw : String)
  | valid (st : HistoryStore)
  deriving Repr, DecidableEq

/-- The part of the file system the store owns: the history file and the
corruption backups (a backup is the Unix-time tag embedded in its sibling
path `<file>.corrupted.<time>.bak` together with the copied contents). -/
structure FSState where
  file : Option FileData
  backups : List (Nat × FileData)
  deriving Repr, DecidableEq

/-- The two error classes `load_history` raises. -/
inductive LoadError where
  | validationError
  | fileError
  deriving Repr, DecidableEq

/-- `load_history`: a missing file is a `FileError`; unparsable or
structurally invalid contents are a `ValidationError`. -/
def load_history (fs : FSState) : Except LoadError HistoryStore :=
  match fs.file with
  | none => .error .fileError
  | some (.malformed _) => .error .validationError
  | some (.invalidStruct _) => .error .validationError
  | some (.valid st) => .ok st

/-- `save_history`: refresh `metadata.last_updated`, then atomically replace
the file with the serialized store. -/
def save_history_fs (now : String) (st : HistoryStore) (fs : FSState) :
    HistoryStore × FSState :=
  let st := save_history_touch now st
  (st, { fs with file := some (.valid st) })

/-- `_backup_corrupted_file`: copy the current file to a sibling backup path
tagged with `int(time.time())`. -/
def backup_corrupted_file (unix_time : Nat) (fs : FSState) : FSState :=
  match fs.file with
  | some fd => { fs with backups := fs.backups ++ [(unix_time, fd)] }
  | none => fs

/-- `_create_initial_history` including its `save_history` call. -/
def create_initial_history_fs (now : String) (fs : FSState) :
    HistoryStore × FSState :=
  save_history_fs now (create_initial_history now) fs

/-- `_load_or_initialize_history`: load if the file exists; on any load
failure back up the corrupted file (when configured) and reinitialize. -/
def load_or_initialize_history (cfg : Config) (now : String)
    (unix_time : Nat) (fs : FSState) : HistoryStore × FSState :=
  match fs.file with
  | some _ =>
    match load_history fs with
    | .ok data => (data, fs)
    | .error _ =>
      let fs :=
        if cfg.backup_on_corruption then backup_corrupted_file unix_time fs
        else fs
      create_initial_history_fs now fs
  | none => create_initial_history_fs now fs

/-- Method-call embedding of `get_last_public_ip` threading the manager
state and the file system explicitly (the body only reads
`self._history_data`). -/
def get_last_public_ipS (st : HistoryStore) (fs : FSState) :
    Option String × HistoryStore × FSState :=
  let current_ip := st.current.public_ip
  if goodIp current_ip then (current_ip, st, fs) else (none, st, fs)

/-- Method-call embedding of `has_ip_changed` threading the manager state
and the file system explicitly. -/
def has_ip_changedS (st : HistoryStore) (fs : FSState)
    (current_public_ip : String) : Bool × HistoryStore × FSState :=
  if current_public_ip = "" ∨ current_public_ip = sentinel then
    (false, st, fs)
  else
    let (last_ip, st, fs) := get_last_public_ipS st fs
    match last_ip with
    | none => (true, st, fs)
    | some last_ip => (decide (current_public_ip ≠ last_ip), st, fs)

/-- The arguments of one `record_ip_check` call (for reasoning about call
sequences). -/
structure CheckCall where
  ip_data : IPData
  mode : String
  notification_sent : Bool
  execution_duration : Rat
  now : String
  cutoff_iso : String
  deriving Repr, DecidableEq

/-- Run a sequence of `record_ip_check` calls left to right. -/
def runChecks (cfg : Config) (st : HistoryStore) : List CheckCall → HistoryStore
  | [] => st
  | c :: cs =>
    runChecks cfg
      ((record_ip_check cfg st c.ip_data c.mode c.notification_sent
          c.execution_duration c.now c.cutoff_iso).2) cs

/-- Number of history entries the auto-cleanup embedded in one
`record_ip_check` call removes. -/
def removedBy (cfg : Config) (st : HistoryStore) (c : CheckCall) : Nat :=
  (record_ip_check_core cfg st c.ip_data c.mode c.notification_sent
      c.execution_duration c.now c.cutoff_iso).1

/-- Total number of history entries removed by cleanup across a sequence of
`record_ip_check` calls. -/
def removedTotal (cfg : Config) (st : HistoryStore) : List CheckCall → Nat
  | [] => 0
  | c :: cs =>
    removedBy cfg st c +
      removedTotal cfg
        ((record_ip_check cfg st c.ip_data c.mode c.notification_sent
            c.execution_duration c.now c.cutoff_iso).2) cs

/-- Concrete history entry used to exercise the cleanup truncation branch
(timestamps chosen increasing in insertion order). -/
def itemJan1 : HistoryItem :=
  { timestamp := "2025-01-01T00:00:00+00:00", public_ip := some "1.1.1.1",
    local_ip := none, mode := "scheduled", ip_changed := false,
    notification_sent := false, execution_duration := 0 }

/-- Second concrete history entry (one day later). -/
def itemJan2 : HistoryItem :=
  { itemJan1 with timestamp := "2025-01-02T00:00:00+00:00" }

/-- Third concrete history entry (two days later). -/
def itemJan3 : HistoryItem :=
  { itemJan1 with timestamp := "2025-01-03T00:00:00+00:00" }

/-- A store holding three records in insertion (chronological) order. -/
def storeJan : HistoryStore :=
  { create_initial_history "2025-01-01T00:00:00+00:00" with
      history := [itemJan1, itemJan2, itemJan3] }

/-- A configuration with a small `max_records`, as in the spec's
`max_records` enforcement scenario. -/
def smallCfg : Config :=
  { keep_days := 30, max_records := 2, auto_cleanup := true,
    backup_on_corruption := true }

/-! ### Generic lemmas about the embedded string order and stable sort -/

theorem lexLe_total : ∀ x y : List Char, lexLe x y = true ∨ lexLe y x = true
  | [], _ => Or.inl rfl
  | _ :: _, [] => Or.inr rfl
  | a :: as, b :: bs => by
    by_cases h1 : a.toNat < b.toNat
    · left; simp [lexLe, h1]
    · by_cases h2 : a.toNat = b.toNat
      · rcases lexLe_total as bs with h | h
        · left; simp [lexLe, h1, h2, h]
        · right; simp [lexLe, h2.symm, h]
      · right
        have hlt : b.toNat < a.toNat := by omega
        simp [lexLe, hlt]

theorem lexLe_trans : ∀ x y z : List Char,
    lexLe x y = true → lexLe y z = true → lexLe x z = true
  | [], _, _ => by intro _ _; rfl
  | _ :: _, [], _ => by intro h _; simp [lexLe] at h
  | _ :: _, _ :: _, [] => by intro _ h; simp [lexLe] at h
  | a :: as, b :: bs, c :: cs => by
    intro h1 h2
    simp only [lexLe] at h1 h2 ⊢
    by_cases hab : a.toNat < b.toNat
    · by_cases hbc : b.toNat < c.toNat
      · simp [show a.toNat < c.toNat by omega]
      · rw [if_neg hbc] at h2
        by_cases hbc2 : b.toNat = c.toNat
        · simp [show a.toNat < c.toNat by omega]
        · rw [if_neg hbc2] at h2; exact absurd h2 (by simp)
    · rw [if_neg hab] at h1
      by_cases hab2 : a.toNat = b.toNat
      · rw [if_pos hab2] at h1
        by_cases hbc : b.toNat < c.toNat
        · simp [show a.toNat < c.toNat by omega]
        · rw [if_neg hbc] at h2
          by_cases hbc2 : b.toNat = c.toNat
          · rw [if_pos hbc2] at h2
            rw [if_neg (show ¬ a.toNat < c.toNat by omega),
              if_pos (show a.toNat = c.toNat by omega)]
            exact lexLe_trans as bs cs h1 h2
          · rw [if_neg hbc2] at h2; exact absurd h2 (by simp)
      · rw [if_neg hab2] at h1; exact absurd h1 (by simp)

theorem pyStrLe_total (x y : String) : pyStrLe x y = true ∨ pyStrLe y x = true :=
  lexLe_total x.data y.data

theorem pyStrLe_trans {x y z : String} (h1 : pyStrLe x y = true)
    (h2 : pyStrLe y z = true) : pyStrLe x z = true :=
  lexLe_trans x.data y.data z.data h1 h2

theorem length_insertLe {α : Type} (le : α → α → Bool) (x : α) :
    ∀ l : List α, (insertLe le x l).length = l.length + 1
  | [] => rfl
  | y :: ys => by
    by_cases h : le x y = true <;> simp [insertLe, h, length_insertLe le x ys]

theorem length_insSort {α : Type} (le : α → α → Bool) :
    ∀ l : List α, (insSort le l).length = l.length
  | [] => rfl
  | x :: xs => by simp [insSort, length_insertLe, length_insSort le xs]

theorem perm_insertLe {α : Type} (le : α → α → Bool) (x : α) :
    ∀ l : List α, (insertLe le x l).Perm (x :: l)
  | [] => List.Perm.refl _
  | y :: ys => by
    by_cases h : le x y = true
    · simp [insertLe, h]
    · simp only [insertLe, h, if_false]
      exact ((perm_insertLe le x ys).cons y).trans (List.Perm.swap x y ys)

theorem perm_insSort {α : Type} (le : α → α → Bool) :
    ∀ l : List α, (insSort le l).Perm l
  | [] => List.Perm.refl _
  | x :: xs =>
    (perm_insertLe le x (insSort le xs)).trans ((perm_insSort le xs).cons x)

theorem mem_insertLe {α : Type} (le : α → α → Bool) (x a : α) (l : List α) :
    a ∈ insertLe le x l ↔ a = x ∨ a ∈ l := by
  rw [(perm_insertLe le x l).mem_iff, List.mem_cons]

theorem pairwise_insertLe {α : Type} (le : α → α → Bool)
    (htrans : ∀ a b c, le a b = true → le b c = true → le a c = true)
    (htot : ∀ a b, le a b = true ∨ le b a = true) (x : α) :
    ∀ l : List α, l.Pairwise (fun a b => le a b = true) →
      (insertLe le x l).Pairwise (fun a b => le a b = true)
  | [], _ => by simp [insertLe]
  | y :: ys, h => by
    rw [List.pairwise_cons] at h
    obtain ⟨hy, hys⟩ := h
    by_cases hxy : le x y = true
    · rw [show insertLe le x (y :: ys) = x :: y :: ys from by
        simp [insertLe, hxy]]
      rw [List.pairwise_cons]
      refine ⟨?_, by rw [List.pairwise_cons]; exact ⟨hy, hys⟩⟩
      intro z hz
      rcases List.mem_cons.mp hz with rfl | hz
      · exact hxy
      · exact htrans x y z hxy (hy z hz)
    · have hyx : le y x = true := (htot x y).resolve_left hxy
      rw [show insertLe le x (y :: ys) = y :: insertLe le x ys from by
        simp [insertLe, hxy]]
      rw [List.pairwise_cons]
      refine ⟨?_, pairwise_insertLe le htrans htot x ys hys⟩
      intro z hz
      rcases (mem_insertLe le x z ys).mp hz with rfl | hz
      · exact hyx
      · exact hy z hz

theorem pairwise_insSort {α : Type} (le : α → α → Bool)
    (htrans : ∀ a b c, le a b = true → le b c = true → le a c = true)
    (htot : ∀ a b, le a b = true ∨ le b a = true) :
    ∀ l : List α, (insSort le l).Pairwise (fun a b => le a b = true)
  | [] => List.Pairwise.nil
  | x :: xs =>
    pairwise_insertLe le htrans htot x (insSort le xs)
      (pairwise_insSort le htrans htot xs)

theorem tsDesc_trans (a b c : HistoryItem) (h1 : tsDesc a b = true)
    (h2 : tsDesc b c = true) : tsDesc a c = true :=
  pyStrLe_trans h2 h1

theorem tsDesc_total (a b : HistoryItem) : tsDesc a b = true ∨ tsDesc b a = true :=
  (pyStrLe_total b.timestamp a.timestamp).imp id id

theorem sortDesc_perm (l : List HistoryItem) : (sortDescByTimestamp l).Perm l :=
  perm_insSort tsDesc l

theorem sortDesc_length (l : List HistoryItem) :
    (sortDescByTimestamp l).length = l.length :=
  length_insSort tsDesc l

theorem sortDesc_pairwise (l : List HistoryItem) :
    (sortDescByTimestamp l).Pairwise (fun a b => tsDesc a b = true) :=
  pairwise_insSort tsDesc tsDesc_trans tsDesc_total l

/-! ### Frame and accounting lemmas for cleanup and the record path -/

theorem cleanup_impl_metadata (cfg : Config) (kd : Int) (cutoff : String)
    (st : HistoryStore) :
    (cleanup_old_records_impl cfg kd cutoff st).2.metadata = st.metadata := by
  simp only [cleanup_old_records_impl]; split_ifs <;> rfl

theorem cleanup_impl_statistics (cfg : Config) (kd : Int) (cutoff : String)
    (st : HistoryStore) :
    (cleanup_old_records_impl cfg kd cutoff st).2.statistics = st.statistics := by
  simp only [cleanup_old_records_impl]; split_ifs <;> rfl

theorem cleanup_impl_current (cfg : Config) (kd : Int) (cutoff : String)
    (st : HistoryStore) :
    (cleanup_old_records_impl cfg kd cutoff st).2.current = st.current := by
  simp only [cleanup_old_records_impl]; split_ifs <;> rfl

theorem cleanup_impl_length (cfg : Config) (kd : Int) (cutoff : String)
    (st : HistoryStore) :
    (cleanup_old_records_impl cfg kd cutoff st).2.history.length +
      (cleanup_old_records_impl cfg kd cutoff st).1 = st.history.length := by
  have hf : (st.history.filter
      (fun record => pyStrLe cutoff record.timestamp)).length ≤
      st.history.length := List.length_filter_le _ _
  have hs := sortDesc_length
    (st.history.filter (fun record => pyStrLe cutoff record.timestamp))
  have ht := List.length_take cfg.max_records
    (sortDescByTimestamp
      (st.history.filter (fun record => pyStrLe cutoff record.timestamp)))
  simp only [cleanup_old_records_impl]
  split_ifs <;> simp_all

theorem update_statistics_total (st : HistoryStore) (m : String) (c n : Bool)
    (t : String) :
    (update_statistics st m c n t).metadata.total_checks =
      st.metadata.total_checks + 1 := rfl

theorem update_statistics_history (st : HistoryStore) (m : String) (c n : Bool)
    (t : String) :
    (update_statistics st m c n t).history = st.history := rfl

theorem update_statistics_freq_scheduled (st : HistoryStore) (m : String)
    (c n : Bool) (t : String) :
    (update_statistics st m c n t).statistics.check_frequency.scheduled =
      st.statistics.check_frequency.scheduled +
        (if m = "scheduled" then 1 else 0) := by
  simp only [update_statistics, apply_ite Statistics.check_frequency,
    apply_ite CheckFrequency.scheduled, ite_self]
  by_cases h1 : m = "scheduled" <;> simp [h1]

theorem update_statistics_freq_manual (st : HistoryStore) (m : String)
    (c n : Bool) (t : String) :
    (update_statistics st m c n t).statistics.check_frequency.manual =
      st.statistics.check_frequency.manual +
        (if m = "manual" then 1 else 0) := by
  simp only [update_statistics, apply_ite Statistics.check_frequency,
    apply_ite CheckFrequency.manual, ite_self]
  by_cases h1 : m = "scheduled" <;> by_cases h2 : m = "manual" <;>
    simp [h1, h2]

theorem update_statistics_freq_test (st : HistoryStore) (m : String)
    (c n : Bool) (t : String) :
    (update_statistics st m c n t).statistics.check_frequency.test =
      st.statistics.check_frequency.test + (if m = "test" then 1 else 0) := by
  simp only [update_statistics, apply_ite Statistics.check_frequency,
    apply_ite CheckFrequency.test, ite_self]
  by_cases h1 : m = "scheduled" <;> by_cases h2 : m = "manual" <;>
    by_cases h3 : m = "test" <;> simp [h1, h2, h3]

theorem save_touch_total (now : String) (st : HistoryStore) :
    (save_history_touch now st).metadata.total_checks =
      st.metadata.total_checks := rfl

theorem save_touch_history (now : String) (st : HistoryStore) :
    (save_history_touch now st).history = st.history := rfl

theorem save_touch_statistics (now : String) (st : HistoryStore) :
    (save_history_touch now st).statistics = st.statistics := rfl

theorem cleanup_wrap_length (cfg : Config) (kd : Option Int) (cutoff : String)
    (st : HistoryStore) :
    (cleanup_old_records cfg kd cutoff st).2.history.length +
      (cleanup_old_records cfg kd cutoff st).1 = st.history.length :=
  cleanup_impl_length cfg (kd.getD cfg.keep_days) cutoff st

theorem record_core_total (cfg : Config) (st : HistoryStore) (ip_data : IPData)
    (mode : String) (ns : Bool) (dur : Rat) (now cutoff : String) :
    (record_ip_check_core cfg st ip_data mode ns dur now
        cutoff).2.metadata.total_checks = st.metadata.total_checks + 1 := by
  simp only [record_ip_check_core, save_touch_total]
  by_cases h : cfg.auto_cleanup
  · rw [if_pos h]
    simp only [cleanup_old_records, cleanup_impl_metadata,
      update_statistics_total]
  · rw [if_neg h]
    simp only [update_statistics_total]

theorem record_core_length (cfg : Config) (st : HistoryStore) (ip_data : IPData)
    (mode : String) (ns : Bool) (dur : Rat) (now cutoff : String) :
    (record_ip_check_core cfg st ip_data mode ns dur now cutoff).2.history.length
        + (record_ip_check_core cfg st ip_data mode ns dur now cutoff).1 =
      st.history.length + 1 := by
  simp only [record_ip_check_core, save_touch_history]
  by_cases h : cfg.auto_cleanup
  · rw [if_pos h, cleanup_wrap_length]
    simp [update_statistics_history]
  · rw [if_neg h]
    simp [update_statistics_history]

theorem record_core_freq_scheduled (cfg : Config) (st : HistoryStore)
    (ip_data : IPData) (mode : String) (ns : Bool) (dur : Rat)
    (now cutoff : String) :
    (record_ip_check_core cfg st ip_data mode ns dur now
        cutoff).2.statistics.check_frequency.scheduled =
      st.statistics.check_frequency.scheduled +
        (if mode = "scheduled" then 1 else 0) := by
  simp only [record_ip_check_core, save_touch_statistics]
  by_cases h : cfg.auto_cleanup
  · rw [if_pos h]
    simp only [cleanup_old_records, cleanup_impl_statistics,
      update_statistics_freq_scheduled]
  · rw [if_neg h]
    simp only [update_statistics_freq_scheduled]

theorem record_core_freq_manual (cfg : Config) (st : HistoryStore)
    (ip_data : IPData) (mode : String) (ns : Bool) (dur : Rat)
    (now cutoff : String) :
    (record_ip_check_core cfg st ip_data mode ns dur now
        cutoff).2.statistics.check_frequency.manual =
      st.statistics.check_frequency.manual +
        (if mode = "manual" then 1 else 0) := by
  simp only [record_ip_check_core, save_touch_statistics]
  by_cases h : cfg.auto_cleanup
  · rw [if_pos h]
    simp only [cleanup_old_records, cleanup_impl_statistics,
      update_statistics_freq_manual]
  · rw [if_neg h]
    simp only [update_statistics_freq_manual]

theorem record_core_freq_test (cfg : Config) (st : HistoryStore)
    (ip_data : IPData) (mode : String) (ns : Bool) (dur : Rat)
    (now cutoff : String) :
    (record_ip_check_core cfg st ip_data mode ns dur now
        cutoff).2.statistics.check_frequency.test =
      st.statistics.check_frequency.test +
        (if mode = "test" then 1 else 0) := by
  simp only [record_ip_check_core, save_touch_statistics]
  by_cases h : cfg.auto_cleanup
  · rw [if_pos h]
    simp only [cleanup_old_records, cleanup_impl_statistics,
      update_statistics_freq_test]
  · rw [if_neg h]
    simp only [update_statistics_freq_test]

/-! ### Claim theorems -/

/-- C2: the notification policy is a pure function of `(mode, has_changed)`:
`test` never notifies, `manual` always notifies, `scheduled` notifies iff
the IP changed, and any mode outside the three known values does not
notify. -/
theorem notification_policy_table (mode : String) (has_changed : Bool) :
    should_notify "test" has_changed = false ∧
    should_notify "manual" has_changed = true ∧
    should_notify "scheduled" has_changed = has_changed ∧
    (mode ≠ "test" → mode ≠ "manual" → mode ≠ "scheduled" →
      should_notify mode has_changed = false) := by
  refine ⟨rfl, rfl, rfl, ?_⟩
  intro h1 h2 h3
  simp [should_notify, h1, h2, h3]

theorem notification_policy_table_witness :
    should_notify "cron" true = false :=
  (notification_policy_table "cron" true).2.2.2 (by decide) (by decide)
    (by decide)

/-- C3: `has_ip_changed` returns `false` for an empty or sentinel candidate;
`get_last_public_ip` is `none` exactly when `current.public_ip` is absent,
empty or the sentinel; when no prior IP is recorded every other candidate
counts as changed; otherwise the result is exact (case-sensitive) string
inequality against `get_last_public_ip()`. -/
theorem has_ip_changed_semantics (st : HistoryStore) (cand : String) :
    ((cand = "" ∨ cand = sentinel) → has_ip_changed st cand = false) ∧
    (get_last_public_ip st = none ↔ goodIp st.current.public_ip = false) ∧
    (¬(cand = "" ∨ cand = sentinel) → get_last_public_ip st = none →
      has_ip_changed st cand = true) ∧
    (∀ last_ip : String, ¬(cand = "" ∨ cand = sentinel) →
      get_last_public_ip st = some last_ip →
      has_ip_changed st cand = decide (cand ≠ last_ip)) := by
  refine ⟨?_, ?_, ?_, ?_⟩
  · intro h; simp [has_ip_changed, h]
  · unfold get_last_public_ip
    cases hx : st.current.public_ip with
    | none => simp [goodIp]
    | some s => cases hg : goodIp (some s) <;> simp [hg]
  · intro h hn; simp [has_ip_changed, h, hn]
  · intro last_ip h hsome; simp [has_ip_changed, h, hsome]

theorem has_ip_changed_semantics_witness :
    has_ip_changed (create_initial_history "2025-01-01T00:00:00+00:00")
      "1.2.3.4" = true :=
  (has_ip_changed_semantics
      (create_initial_history "2025-01-01T00:00:00+00:00") "1.2.3.4").2.2.1
    (by decide) (by decide)

/-- C10: `get_last_public_ip` and `has_ip_changed` are pure queries: their
method-call embeddings hand back the store and the file system unchanged,
and the answers agree with the pure functions of the store. -/
theorem queries_leave_store_unchanged (st : HistoryStore) (fs : FSState)
    (cand : String) :
    get_last_public_ipS st fs = (get_last_public_ip st, st, fs) ∧
    has_ip_changedS st fs cand = (has_ip_changed st cand, st, fs) := by
  constructor
  · cases hg : goodIp st.current.public_ip <;>
      simp [get_last_public_ipS, get_last_public_ip, hg]
  · by_cases h : cand = "" ∨ cand = sentinel
    · simp [has_ip_changedS, has_ip_changed, h]
    · cases hg : goodIp st.current.public_ip
      · simp [has_ip_changedS, has_ip_changed, get_last_public_ipS,
          get_last_public_ip, h, hg]
      · cases hx : st.current.public_ip
        · rw [hx] at hg; simp [goodIp] at hg
        · rw [hx] at hg
          simp [has_ip_changedS, has_ip_changed, get_last_public_ipS,
            get_last_public_ip, h, hg, hx]

/-- C8: a test-mode check never mutates the store, and for every other mode
the returned store is exactly what `record_ip_check` produces from the
observation, the mode, the notification decision and the measured
duration. -/
theorem test_mode_leaves_store (cfg : Config) (st : HistoryStore)
    (local_res pub_res : Except String String) (mode now : String) (dur : Rat)
    (cutoff : String) :
    (mode = "test" →
      (check_ip_with_history cfg st local_res pub_res mode now dur
        cutoff).2 = st) ∧
    (mode ≠ "test" →
      (check_ip_with_history cfg st local_res pub_res mode now dur
        cutoff).2 =
      (record_ip_check cfg st (get_all_ips local_res pub_res now) mode
        (should_notify mode
          (if goodIp (get_all_ips local_res pub_res now).public_ip then
            has_ip_changed st
              ((get_all_ips local_res pub_res now).public_ip.getD "")
          else false))
        (pyRound2 dur) now cutoff).2) := by
  constructor
  · intro h; simp [check_ip_with_history, h]
  · intro h; simp [check_ip_with_history, h]

theorem test_mode_leaves_store_witness :
    (check_ip_with_history defaultConfig
        (create_initial_history "2025-01-01T00:00:00+00:00")
        (Except.ok "10.0.0.5") (Except.ok "1.2.3.4") "test"
        "2025-01-02T00:00:00+00:00" 0 "2024-12-03T00:00:00+00:00").2 =
      create_initial_history "2025-01-01T00:00:00+00:00" :=
  (test_mode_leaves_store defaultConfig
      (create_initial_history "2025-01-01T00:00:00+00:00")
      (Except.ok "10.0.0.5") (Except.ok "1.2.3.4") "test"
      "2025-01-02T00:00:00+00:00" 0 "2024-12-03T00:00:00+00:00").1 rfl

/-- C7 counterexample: when both resolver sources fail, the check result's
`error` field stays `none` (the messages go to `warnings`), and in manual
mode `should_notify` is `true`, not `false` — so total resolver failure is
not "reported via the result's error field with should_notify = false". -/
theorem total_failure_error_field_counterexample :
    ((check_ip_with_history defaultConfig
        (create_initial_history "2025-01-01T00:00:00+00:00")
        (Except.error "socket down") (Except.error "all services down")
        "manual" "2025-01-02T00:00:00+00:00" 0
        "2024-12-03T00:00:00+00:00").1.error = none) ∧
    ((check_ip_with_history defaultConfig
        (create_initial_history "2025-01-01T00:00:00+00:00")
        (Except.error "socket down") (Except.error "all services down")
        "manual" "2025-01-02T00:00:00+00:00" 0
        "2024-12-03T00:00:00+00:00").1.should_notify = true) ∧
    ((check_ip_with_history defaultConfig
        (create_initial_history "2025-01-01T00:00:00+00:00")
        (Except.error "socket down") (Except.error "all services down")
        "manual" "2025-01-02T00:00:00+00:00" 0
        "2024-12-03T00:00:00+00:00").1.warnings ≠ []) := by
  refine ⟨rfl, rfl, ?_⟩
  simp [check_ip_with_history, get_all_ips]

/-- C7 amended: the check never raises for resolver failures (the embedding
is total on every resolver outcome): a partially failed resolution yields
the sentinel for the failed address only; when both sources fail the result
carries both sentinels, `has_changed = false`, an untouched `error = none`
with the failure messages in `warnings`, and `should_notify` still follows
the mode policy applied to `has_changed = false`. -/
theorem resolver_failure_fail_soft (cfg : Config) (st : HistoryStore)
    (e1 e2 lip : String) (mode now : String) (dur : Rat) (cutoff : String) :
    ((check_ip_with_history cfg st (Except.error e1) (Except.error e2) mode
        now dur cutoff).1.public_ip = some sentinel) ∧
    ((check_ip_with_history cfg st (Except.error e1) (Except.error e2) mode
        now dur cutoff).1.local_ip = some sentinel) ∧
    ((check_ip_with_history cfg st (Except.error e1) (Except.error e2) mode
        now dur cutoff).1.has_changed = false) ∧
    ((check_ip_with_history cfg st (Except.error e1) (Except.error e2) mode
        now dur cutoff).1.error = none) ∧
    ((check_ip_with_history cfg st (Except.error e1) (Except.error e2) mode
        now dur cutoff).1.warnings =
      ["本地IP獲取失敗: " ++ e1, "公共IP獲取失敗: " ++ e2]) ∧
    ((check_ip_with_history cfg st (Except.error e1) (Except.error e2) mode
        now dur cutoff).1.should_notify = should_notify mode false) ∧
    ((check_ip_with_history cfg st (Except.ok lip) (Except.error e2) mode
        now dur cutoff).1.public_ip = some sentinel) ∧
    ((check_ip_with_history cfg st (Except.ok lip) (Except.error e2) mode
        now dur cutoff).1.local_ip = some lip) ∧
    ((check_ip_with_history cfg st (Except.ok lip) (Except.error e2) mode
        now dur cutoff).1.error = none) :=
  ⟨rfl, rfl, rfl, rfl, rfl, rfl, rfl, rfl, rfl⟩

/-- C6: when loading fails (unparsable or structurally invalid contents)
and `backup_on_corruption` is enabled, the bad file is copied to exactly
one new timestamped backup, a freshly initialized empty store (version
"1.0", all counters zero) is returned instead of an error, and it is
persisted — so an immediately following load succeeds and adds no further
backup. -/
theorem corruption_recovery (cfg : Config) (now : String) (t : Nat)
    (fs : FSState) (fd : FileData)
    (hb : cfg.backup_on_corruption = true)
    (hf : fs.file = some fd)
    (hbad : ∀ s : HistoryStore, fd ≠ FileData.valid s) :
    ((load_or_initialize_history cfg now t fs).1.metadata.version = "1.0") ∧
    ((load_or_initialize_history cfg now t fs).1.metadata.total_checks = 0) ∧
    ((load_or_initialize_history cfg now t fs).1.statistics =
      { total_ip_changes := 0, total_notifications_sent := 0,
        last_change_date := none,
        check_frequency := { scheduled := 0, manual := 0, test := 0 } }) ∧
    ((load_or_initialize_history cfg now t fs).1.history = []) ∧
    ((load_or_initialize_history cfg now t fs).2.backups =
      fs.backups ++ [(t, fd)]) ∧
    ((load_or_initialize_history cfg now t fs).2.file =
      some (FileData.valid (load_or_initialize_history cfg now t fs).1)) ∧
    (∀ (now2 : String) (t2 : Nat),
      load_or_initialize_history cfg now2 t2
          (load_or_initialize_history cfg now t fs).2 =
        ((load_or_initialize_history cfg now t fs).1,
         (load_or_initialize_history cfg now t fs).2)) := by
  obtain ⟨file, backups⟩ := fs
  simp only at hf
  subst hf
  cases fd with
  | valid s => exact absurd rfl (hbad s)
  | malformed raw =>
    simp [load_or_initialize_history, load_history, backup_corrupted_file,
      create_initial_history_fs, save_history_fs, save_history_touch,
      create_initial_history, hb]
  | invalidStruct raw =>
    simp [load_or_initialize_history, load_history, backup_corrupted_file,
      create_initial_history_fs, save_history_fs, save_history_touch,
      create_initial_history, hb]

theorem corruption_recovery_witness :
    (load_or_initialize_history defaultConfig "2025-01-01T00:00:00+00:00" 42
        { file := some (FileData.malformed "not json"),
          backups := [] }).2.backups =
      [(42, FileData.malformed "not json")] := by
  have h := corruption_recovery defaultConfig "2025-01-01T00:00:00+00:00" 42
    { file := some (FileData.malformed "not json"), backups := [] }
    (FileData.malformed "not json") rfl rfl
    (fun s hs => FileData.noConfusion hs)
  simpa using h.2.2.2.2.1

theorem record_snd (cfg : Config) (st : HistoryStore) (ip_data : IPData)
    (mode : String) (ns : Bool) (dur : Rat) (now cutoff : String) :
    (record_ip_check cfg st ip_data mode ns dur now cutoff).2 =
      (record_ip_check_core cfg st ip_data mode ns dur now cutoff).2 := rfl

theorem runChecks_total (cfg : Config) :
    ∀ (calls : List CheckCall) (st : HistoryStore),
      (runChecks cfg st calls).metadata.total_checks =
        st.metadata.total_checks + calls.length
  | [], st => by simp [runChecks]
  | c :: cs, st => by
    simp only [runChecks, List.length_cons]
    rw [runChecks_total cfg cs, record_snd, record_core_total]
    omega

theorem runChecks_length (cfg : Config) :
    ∀ (calls : List CheckCall) (st : HistoryStore),
      (runChecks cfg st calls).history.length + removedTotal cfg st calls =
        st.history.length + calls.length
  | [], st => by simp [runChecks, removedTotal]
  | c :: cs, st => by
    simp only [runChecks, removedTotal, List.length_cons, removedBy]
    have h1 := runChecks_length cfg cs
      ((record_ip_check cfg st c.ip_data c.mode c.notification_sent
          c.execution_duration c.now c.cutoff_iso).2)
    have h2 := record_core_length cfg st c.ip_data c.mode c.notification_sent
      c.execution_duration c.now c.cutoff_iso
    rw [record_snd] at h1 ⊢
    omega

/-- C4: for every sequence of `record_ip_check` calls, `total_checks` grows
by exactly the number of calls and the history length accounts for the
calls minus what cleanup removed; each single call increments
`check_frequency[mode]` exactly for the known modes `scheduled`, `manual`,
`test`, while `total_checks` is incremented for every mode. -/
theorem record_ip_check_accounting (cfg : Config) (st st0 : HistoryStore)
    (calls : List CheckCall) (c : CheckCall) :
    ((runChecks cfg st calls).metadata.total_checks =
      st.metadata.total_checks + calls.length) ∧
    ((runChecks cfg st calls).history.length + removedTotal cfg st calls =
      st.history.length + calls.length) ∧
    ((record_ip_check cfg st0 c.ip_data c.mode c.notification_sent
        c.execution_duration c.now c.cutoff_iso).2.metadata.total_checks =
      st0.metadata.total_checks + 1) ∧
    ((record_ip_check cfg st0 c.ip_data c.mode c.notification_sent
        c.execution_duration c.now
        c.cutoff_iso).2.statistics.check_frequency.scheduled =
      st0.statistics.check_frequency.scheduled +
        (if c.mode = "scheduled" then 1 else 0)) ∧
    ((record_ip_check cfg st0 c.ip_data c.mode c.notification_sent
        c.execution_duration c.now
        c.cutoff_iso).2.statistics.check_frequency.manual =
      st0.statistics.check_frequency.manual +
        (if c.mode = "manual" then 1 else 0)) ∧
    ((record_ip_check cfg st0 c.ip_data c.mode c.notification_sent
        c.execution_duration c.now
        c.cutoff_iso).2.statistics.check_frequency.test =
      st0.statistics.check_frequency.test +
        (if c.mode = "test" then 1 else 0)) :=
  ⟨runChecks_total cfg calls st, runChecks_length cfg calls st,
   record_core_total cfg st0 c.ip_data c.mode c.notification_sent
     c.execution_duration c.now c.cutoff_iso,
   record_core_freq_scheduled cfg st0 c.ip_data c.mode c.notification_sent
     c.execution_duration c.now c.cutoff_iso,
   record_core_freq_manual cfg st0 c.ip_data c.mode c.notification_sent
     c.execution_duration c.now c.cutoff_iso,
   record_core_freq_test cfg st0 c.ip_data c.mode c.notification_sent
     c.execution_duration c.now c.cutoff_iso⟩

theorem cleanup_impl_pos_history (cfg : Config) (kd : Int) (cutoff : String)
    (st : HistoryStore) (hkd : 0 < kd) :
    (cleanup_old_records_impl cfg kd cutoff st).2.history =
      (if cfg.max_records <
          (st.history.filter fun r => pyStrLe cutoff r.timestamp).length then
        (sortDescByTimestamp
          (st.history.filter fun r => pyStrLe cutoff r.timestamp)).take
            cfg.max_records
      else st.history.filter fun r => pyStrLe cutoff r.timestamp) := by
  have hf : (st.history.filter
      (fun r => pyStrLe cutoff r.timestamp)).length ≤ st.history.length :=
    List.length_filter_le _ _
  have hs := sortDesc_length
    (st.history.filter (fun r => pyStrLe cutoff r.timestamp))
  have ht := List.length_take cfg.max_records
    (sortDescByTimestamp (st.history.filter fun r => pyStrLe cutoff r.timestamp))
  simp only [cleanup_old_records_impl, if_neg (by omega : ¬ kd ≤ 0)]
  split_ifs with h1 h2 h3
  · rfl
  · omega
  · rfl
  · have hlen : (st.history.filter
        (fun r => pyStrLe cutoff r.timestamp)).length = st.history.length := by
      omega
    exact ((List.filter_sublist st.history).eq_of_length hlen).symm

/-- C5: `cleanup_old_records(keep_days)` with `keep_days ≤ 0` removes
nothing and returns 0 with the store untouched; with positive `keep_days`
the returned count plus the surviving length equals the original length,
every surviving entry's timestamp is `≥` the cutoff (so exactly the older
entries are removed), the survivors are precisely the age-filtered entries
whenever these fit in `max_records`, and otherwise exactly `max_records`
entries survive — the sorted-descending prefix, each of whose timestamps is
`≥` every dropped entry's timestamp. -/
theorem cleanup_old_records_spec (cfg : Config) (kd : Int) (cutoff : String)
    (st : HistoryStore) :
    (kd ≤ 0 → cleanup_old_records cfg (some kd) cutoff st = (0, st)) ∧
    (0 < kd →
      ((cleanup_old_records cfg (some kd) cutoff st).2.history.length +
        (cleanup_old_records cfg (some kd) cutoff st).1 =
          st.history.length) ∧
      (∀ r ∈ (cleanup_old_records cfg (some kd) cutoff st).2.history,
        pyStrLe cutoff r.timestamp = true) ∧
      ((st.history.filter fun r => pyStrLe cutoff r.timestamp).length ≤
          cfg.max_records →
        (cleanup_old_records cfg (some kd) cutoff st).2.history =
          st.history.filter fun r => pyStrLe cutoff r.timestamp) ∧
      (cfg.max_records <
          (st.history.filter fun r => pyStrLe cutoff r.timestamp).length →
        ((cleanup_old_records cfg (some kd) cutoff st).2.history =
          (sortDescByTimestamp
            (st.history.filter fun r => pyStrLe cutoff r.timestamp)).take
              cfg.max_records) ∧
        ((cleanup_old_records cfg (some kd) cutoff st).2.history.length =
          cfg.max_records) ∧
        (∀ a ∈ (cleanup_old_records cfg (some kd) cutoff st).2.history,
         ∀ b ∈ (sortDescByTimestamp
            (st.history.filter fun r => pyStrLe cutoff r.timestamp)).drop
              cfg.max_records,
          pyStrLe b.timestamp a.timestamp = true))) := by
  constructor
  · intro h
    simp [cleanup_old_records, cleanup_old_records_impl, h]
  · intro hkd
    have hchar := cleanup_impl_pos_history cfg kd cutoff st hkd
    have hwrap : cleanup_old_records cfg (some kd) cutoff st =
        cleanup_old_records_impl cfg kd cutoff st := rfl
    refine ⟨cleanup_wrap_length cfg (some kd) cutoff st, ?_, ?_, ?_⟩
    · intro r hr
      rw [hwrap, hchar] at hr
      by_cases h1 : cfg.max_records <
          (st.history.filter fun r => pyStrLe cutoff r.timestamp).length
      · rw [if_pos h1] at hr
        have hr2 : r ∈ sortDescByTimestamp
            (st.history.filter fun r => pyStrLe cutoff r.timestamp) :=
          List.take_subset _ _ hr
        have hr3 := (sortDesc_perm _).subset hr2
        exact (List.mem_filter.mp hr3).2
      · rw [if_neg h1] at hr
        exact (List.mem_filter.mp hr).2
    · intro h1
      rw [hwrap, hchar, if_neg (by omega)]
    · intro h1
      rw [hwrap, hchar, if_pos h1]
      have hs := sortDesc_length
        (st.history.filter (fun r => pyStrLe cutoff r.timestamp))
      have ht := List.length_take cfg.max_records
        (sortDescByTimestamp
          (st.history.filter fun r => pyStrLe cutoff r.timestamp))
      refine ⟨rfl, by omega, ?_⟩
      intro a ha b hb
      have hpw := sortDesc_pairwise
        (st.history.filter (fun r => pyStrLe cutoff r.timestamp))
      rw [← List.take_append_drop cfg.max_records
        (sortDescByTimestamp
          (st.history.filter fun r => pyStrLe cutoff r.timestamp))] at hpw
      exact (List.pairwise_append.mp hpw).2.2 a ha b hb

theorem cleanup_old_records_spec_witness :
    (cleanup_old_records defaultConfig (some 0) "2024-12-06T00:00:00+00:00"
        (create_initial_history "2025-01-01T00:00:00+00:00") =
      (0, create_initial_history "2025-01-01T00:00:00+00:00")) ∧
    ((cleanup_old_records defaultConfig (some 7) "2024-12-06T00:00:00+00:00"
        (create_initial_history "2025-01-01T00:00:00+00:00")).2.history.length +
      (cleanup_old_records defaultConfig (some 7) "2024-12-06T00:00:00+00:00"
        (create_initial_history "2025-01-01T00:00:00+00:00")).1 = 0) :=
  ⟨(cleanup_old_records_spec defaultConfig 0 "2024-12-06T00:00:00+00:00"
      (create_initial_history "2025-01-01T00:00:00+00:00")).1 (by decide),
   ((cleanup_old_records_spec defaultConfig 7 "2024-12-06T00:00:00+00:00"
      (create_initial_history "2025-01-01T00:00:00+00:00")).2 (by decide)).1⟩

theorem cleanup_sublist (cfg : Config) (kd : Option Int) (cutoff : String)
    (s : HistoryStore)
    (h : (s.history.filter fun r => pyStrLe cutoff r.timestamp).length ≤
      cfg.max_records) :
    (cleanup_old_records cfg kd cutoff s).2.history.Sublist s.history := by
  by_cases hkd : kd.getD cfg.keep_days ≤ 0
  · have heq : cleanup_old_records cfg kd cutoff s = (0, s) := by
      simp [cleanup_old_records, cleanup_old_records_impl, hkd]
    rw [heq]
  · rw [show cleanup_old_records cfg kd cutoff s =
        cleanup_old_records_impl cfg (kd.getD cfg.keep_days) cutoff s from rfl,
      cleanup_impl_pos_history _ _ _ _ (by omega), if_neg (by omega)]
    exact List.filter_sublist s.history

/-- C9 counterexample: with `max_records = 2` and the three-record history
`[itemJan1, itemJan2, itemJan3]` (insertion order), cleanup keeps
`[itemJan3, itemJan2]` — the surviving entries are reordered to descending
timestamp order, so the resulting history is not a subsequence of the
previous one: the claim that no operation reorders the surviving entries is
false. -/
theorem cleanup_reorders_counterexample :
    ((cleanup_old_records smallCfg (some 30) "2024-12-31T00:00:00+00:00"
        storeJan).2.history = [itemJan3, itemJan2]) ∧
    ¬ ((cleanup_old_records smallCfg (some 30) "2024-12-31T00:00:00+00:00"
        storeJan).2.history.Sublist storeJan.history) := by
  constructor
  · decide
  · decide

/-- C9 amended: records are only ever appended and never modified, and the
age filter of cleanup preserves insertion order — the surviving history is
a subsequence of the prior one, both inside `record_ip_check` and in
`cleanup_old_records`, whenever the filtered history fits in
`max_records`; when the `max_records` truncation branch fires instead, the
surviving entries are reordered to descending-timestamp order. -/
theorem history_order_amended (cfg : Config) (st : HistoryStore)
    (c : CheckCall) (kd : Int) (cutoff : String) :
    (((st.history ++ [build_history_item st c.ip_data c.mode
          c.notification_sent c.execution_duration c.now]).filter
        (fun r => pyStrLe c.cutoff_iso r.timestamp)).length ≤
        cfg.max_records →
      (record_ip_check cfg st c.ip_data c.mode c.notification_sent
          c.execution_duration c.now c.cutoff_iso).2.history.Sublist
        (st.history ++ [build_history_item st c.ip_data c.mode
          c.notification_sent c.execution_duration c.now])) ∧
    ((st.history.filter fun r => pyStrLe cutoff r.timestamp).length ≤
        cfg.max_records →
      (cleanup_old_records cfg (some kd) cutoff st).2.history.Sublist
        st.history) ∧
    (List.Pairwise
        (fun a b : HistoryItem => pyStrLe b.timestamp a.timestamp = true)
        (cleanup_old_records cfg (some kd) cutoff st).2.history ∨
      (cleanup_old_records cfg (some kd) cutoff st).2.history.Sublist
        st.history) := by
  refine ⟨?_, ?_, ?_⟩
  · intro h1
    rw [record_snd]
    simp only [record_ip_check_core, save_touch_history]
    by_cases hauto : cfg.auto_cleanup
    · rw [if_pos hauto]
      exact cleanup_sublist cfg none c.cutoff_iso _ h1
    · rw [if_neg hauto]
      exact List.Sublist.refl _
  · intro h1
    exact cleanup_sublist cfg (some kd) cutoff st h1
  · by_cases hkd : kd ≤ 0
    · right
      have heq : cleanup_old_records cfg (some kd) cutoff st = (0, st) := by
        simp [cleanup_old_records, cleanup_old_records_impl, hkd]
      rw [heq]
    · by_cases h1 : cfg.max_records <
          (st.history.filter fun r => pyStrLe cutoff r.timestamp).length
      · left
        rw [show cleanup_old_records cfg (some kd) cutoff st =
            cleanup_old_records_impl cfg kd cutoff st from rfl,
          cleanup_impl_pos_history _ _ _ _ (by omega), if_pos h1]
        exact List.Pairwise.sublist (List.take_sublist _ _)
          (sortDesc_pairwise _)
      · right
        exact cleanup_sublist cfg (some kd) cutoff st (by omega)

theorem history_order_amended_witness :
    (cleanup_old_records defaultConfig (some 30) "2024-12-31T00:00:00+00:00"
        storeJan).2.history.Sublist storeJan.history :=
  (history_order_amended defaultConfig storeJan
      { ip_data := { public_ip := some "9.9.9.9" }, mode := "scheduled",
        notification_sent := false, execution_duration := 0,
        now := "2025-01-04T00:00:00+00:00",
        cutoff_iso := "2024-12-31T00:00:00+00:00" }
      30 "2024-12-31T00:00:00+00:00").2.1 (by decide)

/-- C1: starting from a freshly initialized empty store, one
`record_ip_check` with public IP "1.2.3.4" in scheduled mode succeeds, the
appended record carries `ip_changed = true` with no `previous_public_ip`
attached, and afterwards `has_ip_changed "1.2.3.4"` is `false` while
`has_ip_changed "1.2.3.5"` is `true` — the change flag is computed against
the stored previous IP before that IP is overwritten. -/
theorem first_record_change_before_overwrite (notif : Bool) (dur : Rat) :
    ((record_ip_check defaultConfig
        (create_initial_history "2025-01-01T00:00:00+00:00")
        { public_ip := some "1.2.3.4" } "scheduled" notif dur
        "2025-01-05T00:00:00+00:00" "2024-12-06T00:00:00+00:00").1 = true) ∧
    (has_ip_changed
      (record_ip_check defaultConfig
        (create_initial_history "2025-01-01T00:00:00+00:00")
        { public_ip := some "1.2.3.4" } "scheduled" notif dur
        "2025-01-05T00:00:00+00:00" "2024-12-06T00:00:00+00:00").2
      "1.2.3.4" = false) ∧
    (has_ip_changed
      (record_ip_check defaultConfig
        (create_initial_history "2025-01-01T00:00:00+00:00")
        { public_ip := some "1.2.3.4" } "scheduled" notif dur
        "2025-01-05T00:00:00+00:00" "2024-12-06T00:00:00+00:00").2
      "1.2.3.5" = true) ∧
    ((record_ip_check defaultConfig
        (create_initial_history "2025-01-01T00:00:00+00:00")
        { public_ip := some "1.2.3.4" } "scheduled" notif dur
        "2025-01-05T00:00:00+00:00" "2024-12-06T00:00:00+00:00").2.history.map
      (fun r => (r.ip_changed, r.previous_public_ip)) = [(true, none)]) := by
  cases notif <;> exact ⟨rfl, rfl, rfl, rfl⟩

end IPBot
